import Mathlib

/-!
Shallow embedding of the authentication/authorization core of `src/app.py`
(a FastAPI service): credential store, password hashing, JWT issuing and
verification, and role-based access checks.

Time is modelled in seconds as `Nat`. The credential store (`users` table)
is modelled as a `List User`, appended on insert with an auto-incremented id.
The cryptographic primitives (bcrypt via passlib, HMAC-SHA256 via python-jose)
live in third-party libraries whose code is not under `src/`; those two
primitives are modelled from the spec as idealized collision-free functions,
and each such definition is marked `Modelled from the spec:` in its doc
comment. Everything else is translated from `src/app.py`.
-/

namespace App

/-- Caller-visible HTTP outcome of a raised `HTTPException` (or of a pydantic
validation failure): status code and detail message. -/
structure Http where
  status : Nat
  detail : String
deriving DecidableEq, Repr

/-- Modelled from the spec: the bcrypt hash string produced by passlib
(`pwd_context.hash`), whose internals are not under `src/`. Per spec section 4.1 the
hasher is salted and one-way; it is idealized here as a collision-free keyed
digest, so a well-formed hash carries its salt and digest, and any other
string is `malformed`. -/
inductive HashString where
  | bcrypt (salt : Nat) (digest : Nat × String) : HashString
  | malformed (s : String) : HashString
deriving DecidableEq, Repr

/-- Modelled from the spec: the bcrypt digest function, idealized as
injective in (salt, plaintext) so that distinct plaintexts never collide
(the spec's "false with overwhelming probability" becomes certainty in the
idealization). -/
def bcryptDigest (salt : Nat) (plaintext : String) : Nat × String :=
  (salt, plaintext)

/-- `get_password_hash` (app.py line 98): hashes the password with a fresh
random salt; the salt is passed explicitly here. -/
def get_password_hash (salt : Nat) (password : String) : HashString :=
  .bcrypt salt (bcryptDigest salt password)

/-- `verify_password` (app.py line 95): `pwd_context.verify`. Recomputes the
digest with the salt stored in the hash and compares. Modelled from the spec
for the malformed case: spec section 4.1 says verification of a malformed hash
fails closed (returns false, never throws); the function is total. -/
def verify_password (plain_password : String) (hashed_password : HashString) : Bool :=
  match hashed_password with
  | .bcrypt salt digest => bcryptDigest salt plain_password == digest
  | .malformed _ => false

/-- `User` row (app.py lines 42-47): id, unique username, bcrypt hash, role. -/
structure User where
  id : Nat
  username : String
  hashed_password : HashString
  role : String
deriving DecidableEq, Repr

/-- `db.query(User).filter(User.username == username).first()` as used at
app.py lines 127, 155 and 171. -/
def findByUsername (db : List User) (username : String) : Option User :=
  db.find? (fun u => u.username == username)

/-- JWT claim set encoded at app.py lines 105-110: a `sub` claim (absent when
the `data` dict has no `"sub"` key) and the absolute expiry `exp` in seconds. -/
structure Claims where
  sub : Option String
  exp : Nat
deriving DecidableEq, Repr

/-- Modelled from the spec: an HMAC-SHA256 signature (python-jose internals
are not under `src/`). Spec section 4.3: the signature is deterministic in the
key and the encoded claims and tamper-evident; idealized as the pair itself,
so two signatures are equal iff key and claims agree. -/
structure Sig where
  key : String
  signed : Claims
deriving DecidableEq, Repr

/-- Modelled from the spec: the HS256 signing primitive (see `Sig`). -/
def hs256Sign (key : String) (c : Claims) : Sig :=
  ⟨key, c⟩

/-- An encoded, signed JWT as produced by `jwt.encode` (app.py line 111). -/
structure Token where
  claims : Claims
  sig : Sig
deriving DecidableEq, Repr

/-- A bearer token string as presented by a client: either it parses as a
JWT or it is malformed. -/
inductive RawToken where
  | malformed (s : String)
  | wellFormed (t : Token)
deriving DecidableEq, Repr

/-- app.py line 29. -/
def SECRET_KEY : String := "mysecretkey"

/-- app.py line 31. -/
def ACCESS_TOKEN_EXPIRE_MINUTES : Nat := 30

/-- `create_access_token` (app.py lines 104-112). `expires_delta` is the
optional `timedelta` in seconds. Note the source tests Python truthiness
(`if expires_delta:`), and a zero `timedelta` is falsy, so both `None` and a
zero delta take the 15-minute default branch. -/
def create_access_token (key : String) (sub : Option String) (now : Nat)
    (expires_delta : Option Nat) : Token :=
  let expire : Nat :=
    match expires_delta with
    | some d => if d ≠ 0 then now + d else now + 15 * 60
    | none => now + 15 * 60
  let to_encode : Claims := { sub := sub, exp := expire }
  { claims := to_encode, sig := hs256Sign key to_encode }

/-- The spec's four token-verification failure variants (spec section 4.4). -/
inductive TokenError where
  | BadSignature
  | Expired
  | MissingSubject
  | MalformedToken
deriving DecidableEq, Repr

/-- `jwt.decode(token, SECRET_KEY, algorithms=[ALGORITHM])` (app.py line 121).
Modelled from the spec for the python-jose internals, which are not under
`src/`: a token that does not parse is `MalformedToken`; a signature that does
not match the key is `BadSignature`; per the spec invariant "token is valid
only if signature matches and current time < expiry", a token with
`exp ≤ now` is `Expired`. -/
def jwt_decode (key : String) (now : Nat) (raw : RawToken) : Except TokenError Claims :=
  match raw with
  | .malformed _ => .error .MalformedToken
  | .wellFormed t =>
    if t.sig ≠ hs256Sign key t.claims then .error .BadSignature
    else if t.claims.exp ≤ now then .error .Expired
    else .ok t.claims

/-- Token verification in the sense of spec section 4.4: decode (app.py line 121)
followed by subject extraction with the `None` check of app.py lines 122-124,
which the spec names `MissingSubject`. -/
def verifyToken (key : String) (now : Nat) (raw : RawToken) : Except TokenError String :=
  match jwt_decode key now raw with
  | .error e => .error e
  | .ok c =>
    match c.sub with
    | none => .error .MissingSubject
    | some username => .ok username

/-- The single 401 outcome raised for every token failure
(app.py lines 115-119). -/
def credentials_exception : Http :=
  ⟨401, "Could not validate credentials"⟩

/-- `get_current_user` (app.py lines 114-130): verify the bearer token, then
look the subject up in the store; every failure collapses to
`credentials_exception`. -/
def get_current_user (key : String) (now : Nat) (db : List User) (raw : RawToken) :
    Except Http User :=
  match verifyToken key now raw with
  | .error _ => .error credentials_exception
  | .ok username =>
    match findByUsername db username with
    | none => .error credentials_exception
    | some user => .ok user

/-- `get_current_admin` (app.py lines 132-135): 403 unless the stored role is
exactly "admin". -/
def get_current_admin (current_user : User) : Except Http User :=
  if current_user.role ≠ "admin" then
    .error ⟨403, "You are not authorized to perform this action."⟩
  else
    .ok current_user

/-- The dependency chain guarding the role-agnostic `create_item` endpoint
(app.py line 183): only `get_current_user`, no role check. -/
def create_item_auth (key : String) (now : Nat) (db : List User) (raw : RawToken) :
    Except Http User :=
  get_current_user key now db raw

/-- `RegisterInput` (app.py lines 140-143) before pydantic validation. -/
structure RegisterInput where
  username : String
  password : String
  role : String
deriving DecidableEq, Repr

/-- The pydantic constraints of `RegisterInput` (app.py lines 141-142):
username 4-20 chars, password at least 6 chars. -/
def validRegisterInput (input : RegisterInput) : Bool :=
  4 ≤ input.username.length && input.username.length ≤ 20
    && 6 ≤ input.password.length

/-- The 422 response FastAPI returns when pydantic validation rejects the
request body before the endpoint function runs. -/
def validation_error : Http :=
  ⟨422, "validation error"⟩

/-- `register` (app.py lines 152-163), after validation: reject a duplicate
username with 400, otherwise hash the password and insert the new row (id
auto-incremented). Returns the store after the call together with the
outcome. -/
def register (salt : Nat) (db : List User) (input : RegisterInput) :
    List User × Except Http String :=
  match findByUsername db input.username with
  | some _ => (db, .error ⟨400, "Username already registered"⟩)
  | none =>
    let hashed_password := get_password_hash salt input.password
    let new_user : User :=
      { id := db.length, username := input.username,
        hashed_password := hashed_password, role := input.role }
    (db ++ [new_user], .ok "User registered successfully")

/-- The `/register/` endpoint as seen by a caller: pydantic validation of
`RegisterInput` followed by `register`. -/
def registerEndpoint (salt : Nat) (db : List User) (input : RegisterInput) :
    List User × Except Http String :=
  if validRegisterInput input then register salt db input
  else (db, .error validation_error)

/-- Successful login response (app.py line 176). -/
structure LoginResponse where
  access_token : Token
  token_type : String
deriving DecidableEq, Repr

/-- The 400 outcome of `login` for a bad username or password
(app.py line 173). -/
def incorrect_credentials : Http :=
  ⟨400, "Incorrect username or password"⟩

/-- `login` (app.py lines 168-176): look the username up; if absent or the
password does not verify, fail with the one `incorrect_credentials` outcome;
otherwise issue a 30-minute token for the stored username. -/
def login (db : List User) (now : Nat) (username password : String) :
    Except Http LoginResponse :=
  match findByUsername db username with
  | none => .error incorrect_credentials
  | some user =>
    if verify_password password user.hashed_password then
      let access_token := create_access_token SECRET_KEY (some user.username) now
        (some (ACCESS_TOKEN_EXPIRE_MINUTES * 60))
      .ok { access_token := access_token, token_type := "bearer" }
    else
      .error incorrect_credentials

/-- The issuer signs exactly the claims it encodes (app.py line 111). -/
theorem create_access_token_sig (key : String) (sub : Option String) (now : Nat)
    (expires_delta : Option Nat) :
    (create_access_token key sub now expires_delta).sig
      = hs256Sign key (create_access_token key sub now expires_delta).claims :=
  rfl

/-- C1 counterexample: issue a token for "alice" at time 1000 with ttl = 0.
Because `if expires_delta:` is falsy for a zero delta, the expiry is
1000 + 900, not 1000, and verification at the issue time succeeds with
subject "alice" instead of failing with `Expired`. -/
theorem c1_ttl_zero_counterexample :
    (create_access_token SECRET_KEY (some "alice") 1000 (some 0)).claims.exp = 1900 ∧
    verifyToken SECRET_KEY 1000
        (RawToken.wellFormed (create_access_token SECRET_KEY (some "alice") 1000 (some 0)))
      = .ok "alice" := by
  constructor <;> rfl

/-- C1 (amended): for every subject, a token issued with ttl = 0 is treated
exactly like a token issued with no ttl at all (a zero delta is falsy in
`if expires_delta:`): its expiry is issue time + 900 seconds (the 15-minute
default), and verification fails with `Expired` only from 900 seconds after
issue onward. -/
theorem c1_ttl_zero_gets_default_expiry (key : String) (sub : String) (now t : Nat)
    (ht : now + 900 ≤ t) :
    (create_access_token key (some sub) now (some 0)).claims.exp = now + 900 ∧
    create_access_token key (some sub) now (some 0)
      = create_access_token key (some sub) now none ∧
    verifyToken key t
        (RawToken.wellFormed (create_access_token key (some sub) now (some 0)))
      = .error TokenError.Expired := by
  refine ⟨rfl, rfl, ?_⟩
  simp [verifyToken, jwt_decode, create_access_token, hs256Sign, ht]

/-- Witness for `c1_ttl_zero_gets_default_expiry` at key "k", subject "bob",
issue time 0, verification time 900. -/
theorem c1_ttl_zero_gets_default_expiry_witness :
    (create_access_token "k" (some "bob") 0 (some 0)).claims.exp = 0 + 900 ∧
    create_access_token "k" (some "bob") 0 (some 0)
      = create_access_token "k" (some "bob") 0 none ∧
    verifyToken "k" 900
        (RawToken.wellFormed (create_access_token "k" (some "bob") 0 (some 0)))
      = .error TokenError.Expired :=
  c1_ttl_zero_gets_default_expiry "k" "bob" 0 900 (by decide)

/-- A user for concrete witnesses: "alice" registered with password "secret1"
hashed under salt 7, role "user". -/
def aliceUser : User :=
  { id := 0, username := "alice", hashed_password := get_password_hash 7 "secret1",
    role := "user" }

/-- C2: registering a username that already has a record fails with
HTTP 400 "Username already registered" and leaves the store unchanged; and
`register` preserves the invariant that no two records share a username. -/
theorem c2_duplicate_username_rejected (salt : Nat) (db : List User)
    (input : RegisterInput) :
    ((∃ u ∈ db, u.username = input.username) →
      register salt db input = (db, .error ⟨400, "Username already registered"⟩)) ∧
    ((db.map User.username).Nodup →
      ((register salt db input).1.map User.username).Nodup) := by
  constructor
  · rintro ⟨u, hu, he⟩
    have hsome : (findByUsername db input.username).isSome := by
      simp only [findByUsername, List.find?_isSome]
      exact ⟨u, hu, by simp [he]⟩
    rcases hfind : findByUsername db input.username with _ | usr
    · rw [hfind] at hsome; simp at hsome
    · simp [register, hfind]
  · intro hnd
    rcases hfind : findByUsername db input.username with _ | usr
    · have habs : ∀ u ∈ db, u.username ≠ input.username := by
        intro u hu
        have := List.find?_eq_none.mp hfind u hu
        simpa using this
      simp only [register, hfind, List.map_append, List.map_cons, List.map_nil]
      rw [List.nodup_append]
      refine ⟨hnd, List.nodup_singleton _, ?_⟩
      intro a ha hb
      simp only [List.mem_singleton] at hb
      rcases List.mem_map.mp ha with ⟨u, hu, he⟩
      exact habs u hu (he.trans hb)
    · simpa [register, hfind] using hnd

/-- Witness for `c2_duplicate_username_rejected` at the store already holding
"alice": a second registration of "alice" yields 400 and the unchanged store,
and uniqueness is preserved. -/
theorem c2_duplicate_username_rejected_witness :
    register 3 [aliceUser] { username := "alice", password := "other", role := "user" }
      = ([aliceUser], .error ⟨400, "Username already registered"⟩) ∧
    (((register 3 [aliceUser]
        { username := "alice", password := "other", role := "user" }).1.map
          User.username).Nodup) :=
  ⟨(c2_duplicate_username_rejected 3 [aliceUser]
      { username := "alice", password := "other", role := "user" }).1
      ⟨aliceUser, by simp, rfl⟩,
   (c2_duplicate_username_rejected 3 [aliceUser]
      { username := "alice", password := "other", role := "user" }).2
      (by simp)⟩

/-- C3: login for a stored user with a wrong password and login for a
nonexistent username produce the identical caller-visible outcome — the same
400 status with the same "Incorrect username or password" detail — so the
caller cannot tell which case occurred. -/
theorem c3_login_no_username_enumeration (db : List User) (now1 now2 : Nat)
    (u p v q : String) (usr : User)
    (hu : findByUsername db u = some usr)
    (hp : verify_password p usr.hashed_password = false)
    (hv : findByUsername db v = none) :
    login db now1 u p = .error ⟨400, "Incorrect username or password"⟩ ∧
    login db now2 v q = .error ⟨400, "Incorrect username or password"⟩ ∧
    login db now1 u p = login db now2 v q := by
  refine ⟨?_, ?_, ?_⟩ <;>
    simp [login, hu, hp, hv, incorrect_credentials]

/-- Witness for `c3_login_no_username_enumeration`: store holding only
"alice"; login "alice"/"wrong" and login "bob"/"whatever" coincide. -/
theorem c3_login_no_username_enumeration_witness :
    login [aliceUser] 5 "alice" "wrong" = .error ⟨400, "Incorrect username or password"⟩ ∧
    login [aliceUser] 9 "bob" "whatever" = .error ⟨400, "Incorrect username or password"⟩ ∧
    login [aliceUser] 5 "alice" "wrong" = login [aliceUser] 9 "bob" "whatever" :=
  c3_login_no_username_enumeration [aliceUser] 5 9 "alice" "wrong" "bob" "whatever"
    aliceUser (by decide) (by decide) (by decide)

/-- C4: a password verifies against its own hash, and a different plaintext
never verifies against it (certainty in the idealized collision-free model of
bcrypt; the spec says "with overwhelming probability over the salt"). -/
theorem c4_verify_roundtrip (salt : Nat) (p q : String) (hpq : p ≠ q) :
    verify_password p (get_password_hash salt p) = true ∧
    verify_password q (get_password_hash salt p) = false := by
  constructor
  · simp [verify_password, get_password_hash, bcryptDigest]
  · simp [verify_password, get_password_hash, bcryptDigest]
    exact fun h => absurd h.symm hpq

/-- Witness for `c4_verify_roundtrip` at salt 3, plaintexts "pw1" and "pw2". -/
theorem c4_verify_roundtrip_witness :
    verify_password "pw1" (get_password_hash 3 "pw1") = true ∧
    verify_password "pw2" (get_password_hash 3 "pw1") = false :=
  c4_verify_roundtrip 3 "pw1" "pw2" (by decide)

/-- C5: take any token produced by `create_access_token` and replace its
signature by any different one; decoding the altered token fails with
`BadSignature`, and `get_current_user` on it never yields a user, at every
verification time and over every store. -/
theorem c5_tampered_signature_rejected (key : String) (sub : Option String)
    (tIssue now : Nat) (ttl : Option Nat) (db : List User) (s2 : Sig)
    (hs : s2 ≠ (create_access_token key sub tIssue ttl).sig) :
    jwt_decode key now (RawToken.wellFormed
        { claims := (create_access_token key sub tIssue ttl).claims, sig := s2 })
      = .error TokenError.BadSignature ∧
    get_current_user key now db (RawToken.wellFormed
        { claims := (create_access_token key sub tIssue ttl).claims, sig := s2 })
      = .error credentials_exception := by
  have hdec : jwt_decode key now (RawToken.wellFormed
      { claims := (create_access_token key sub tIssue ttl).claims, sig := s2 })
      = .error TokenError.BadSignature := by
    have hne : s2 ≠ hs256Sign key (create_access_token key sub tIssue ttl).claims := by
      simpa [create_access_token_sig] using hs
    simp [jwt_decode, hne]
  exact ⟨hdec, by simp [get_current_user, verifyToken, hdec]⟩

/-- Witness for `c5_tampered_signature_rejected`: a token for "alice" issued
at time 0 with a 60-second ttl, its signature re-keyed to "forged". -/
theorem c5_tampered_signature_rejected_witness :
    jwt_decode SECRET_KEY 10 (RawToken.wellFormed
        { claims := (create_access_token SECRET_KEY (some "alice") 0 (some 60)).claims,
          sig := ⟨"forged", (create_access_token SECRET_KEY (some "alice") 0 (some 60)).claims⟩ })
      = .error TokenError.BadSignature ∧
    get_current_user SECRET_KEY 10 [aliceUser] (RawToken.wellFormed
        { claims := (create_access_token SECRET_KEY (some "alice") 0 (some 60)).claims,
          sig := ⟨"forged", (create_access_token SECRET_KEY (some "alice") 0 (some 60)).claims⟩ })
      = .error credentials_exception :=
  c5_tampered_signature_rejected SECRET_KEY (some "alice") 0 10 (some 60) [aliceUser]
    ⟨"forged", (create_access_token SECRET_KEY (some "alice") 0 (some 60)).claims⟩
    (by decide)

/-- C6: every token-verification failure, whatever its variant, collapses to
the one 401 `credentials_exception` at the caller boundary; the four variants
are pairwise distinct values (distinguishable for logging/testing), and each
of the four is reachable on a concrete input. -/
theorem c6_four_variants_one_outcome (key : String) (now : Nat) (db : List User)
    (raw : RawToken) (e : TokenError)
    (he : verifyToken key now raw = .error e) :
    get_current_user key now db raw = .error credentials_exception ∧
    (TokenError.BadSignature ≠ TokenError.Expired ∧
     TokenError.BadSignature ≠ TokenError.MissingSubject ∧
     TokenError.BadSignature ≠ TokenError.MalformedToken ∧
     TokenError.Expired ≠ TokenError.MissingSubject ∧
     TokenError.Expired ≠ TokenError.MalformedToken ∧
     TokenError.MissingSubject ≠ TokenError.MalformedToken) ∧
    verifyToken "k" 0 (RawToken.malformed "notajwt") = .error TokenError.MalformedToken ∧
    verifyToken "k" 0 (RawToken.wellFormed
        { claims := { sub := some "a", exp := 10 },
          sig := ⟨"other", { sub := some "a", exp := 10 }⟩ })
      = .error TokenError.BadSignature ∧
    verifyToken "k" 5 (RawToken.wellFormed
        { claims := { sub := some "a", exp := 5 },
          sig := hs256Sign "k" { sub := some "a", exp := 5 } })
      = .error TokenError.Expired ∧
    verifyToken "k" 0 (RawToken.wellFormed
        { claims := { sub := none, exp := 10 },
          sig := hs256Sign "k" { sub := none, exp := 10 } })
      = .error TokenError.MissingSubject := by
  refine ⟨by simp [get_current_user, he], by decide, rfl, rfl, rfl, rfl⟩

/-- Witness for `c6_four_variants_one_outcome` at a malformed bearer string
over the store holding "alice". -/
theorem c6_four_variants_one_outcome_witness :
    get_current_user "k" 0 [aliceUser] (RawToken.malformed "zzz")
      = .error credentials_exception :=
  (c6_four_variants_one_outcome "k" 0 [aliceUser] (RawToken.malformed "zzz")
    TokenError.MalformedToken rfl).1

/-- An admin for concrete witnesses: "root" registered with password
"rootpass" hashed under salt 5, role "admin". -/
def rootUser : User :=
  { id := 0, username := "root", hashed_password := get_password_hash 5 "rootpass",
    role := "admin" }

/-- C7: for an authenticated identity, the admin gate succeeds exactly when
the stored role is the string "admin" and otherwise yields the 403 Forbidden
outcome, while the role-agnostic dependency of `create_item` admits the
identity regardless of role. -/
theorem c7_admin_gate_exact_role (key : String) (now : Nat) (db : List User)
    (raw : RawToken) (u : User)
    (hu : get_current_user key now db raw = .ok u) :
    (get_current_admin u = .ok u ↔ u.role = "admin") ∧
    (get_current_admin u
        = .error ⟨403, "You are not authorized to perform this action."⟩
      ↔ ¬ u.role = "admin") ∧
    create_item_auth key now db raw = .ok u := by
  by_cases h : u.role = "admin" <;>
    simp [get_current_admin, h, create_item_auth, hu]

/-- Witness for `c7_admin_gate_exact_role`: "root" (role "admin")
authenticated with a fresh 30-minute token over the store holding only
"root". -/
theorem c7_admin_gate_exact_role_witness :
    (get_current_admin rootUser = .ok rootUser ↔ rootUser.role = "admin") ∧
    (get_current_admin rootUser
        = .error ⟨403, "You are not authorized to perform this action."⟩
      ↔ ¬ rootUser.role = "admin") ∧
    create_item_auth SECRET_KEY 0 [rootUser]
        (RawToken.wellFormed (create_access_token SECRET_KEY (some "root") 0 (some 1800)))
      = .ok rootUser :=
  c7_admin_gate_exact_role SECRET_KEY 0 [rootUser]
    (RawToken.wellFormed (create_access_token SECRET_KEY (some "root") 0 (some 1800)))
    rootUser rfl

/-- C8: for every plaintext and every malformed hash string, password
verification returns false; `verify_password` is a total Lean function, so
no exception can propagate to the caller (spec section 4.1 fails-closed
contract). -/
theorem c8_malformed_hash_fails_closed (plain s : String) :
    verify_password plain (HashString.malformed s) = false :=
  rfl

/-- C9: a token that verifies (valid signature, unexpired, subject present)
still does not authenticate when no stored user bears the subject username:
`get_current_user` fails with the same 401 outcome. -/
theorem c9_subject_absent_from_store (key : String) (now : Nat) (db : List User)
    (raw : RawToken) (username : String)
    (hv : verifyToken key now raw = .ok username)
    (hn : findByUsername db username = none) :
    get_current_user key now db raw = .error credentials_exception := by
  simp [get_current_user, hv, hn]

/-- Witness for `c9_subject_absent_from_store`: a well-signed, unexpired
token for "ghost" over the store holding only "alice". -/
theorem c9_subject_absent_from_store_witness :
    get_current_user SECRET_KEY 1 [aliceUser]
        (RawToken.wellFormed (create_access_token SECRET_KEY (some "ghost") 0 (some 60)))
      = .error credentials_exception :=
  c9_subject_absent_from_store SECRET_KEY 1 [aliceUser]
    (RawToken.wellFormed (create_access_token SECRET_KEY (some "ghost") 0 (some 60)))
    "ghost" rfl rfl

/-- C10: a registration whose password is shorter than 6 characters is
rejected by pydantic validation with the 422 outcome before the endpoint
body runs, and the store is unchanged — no `User` record is created — even
when the username is valid and unused. -/
theorem c10_short_password_rejected (salt : Nat) (db : List User)
    (input : RegisterInput) (hp : input.password.length < 6) :
    registerEndpoint salt db input = (db, .error validation_error) := by
  have hval : validRegisterInput input = false := by
    simp [validRegisterInput, Nat.not_le.mpr hp]
  simp [registerEndpoint, hval]

/-- Witness for `c10_short_password_rejected`: username "bobby" (valid,
unused over the empty store) with the 3-character password "abc". -/
theorem c10_short_password_rejected_witness :
    registerEndpoint 1 [] { username := "bobby", password := "abc", role := "user" }
      = ([], .error validation_error) :=
  c10_short_password_rejected 1 []
    { username := "bobby", password := "abc", role := "user" } (by decide)

end App
